import Mathlib

/-!
Shallow embedding of `nipiezojenapy/controller.py` (class `PiezoControl`),
a three-axis piezo stage controller.

Modelling choices:
* Python numeric values (int/float) are embedded as rationals `ℚ`.
* Dynamically typed arguments of `go_to_position`/`step` are a `PyVal`:
  `none` (Python `None`), a number, or a string.  Python truthiness
  (`if x:`) is `truthy`.
* Python exceptions become a `PErr` value: `typeError` for `TypeError`
  and `valueError` for `ValueError`; the exception messages are elided.
* The mutable object state is `PiezoState` (`last_write_values`) extended
  with an event log `writes` recording every hardware voltage write
  (axis index, full channel path, voltage written, commanded microns).
* The external Analog I/O Provider is a pure environment
  `env : String → ℚ` giving the voltage read back on a named input
  channel.  Channel-name lookups use `List.getD` with default `""`;
  all real configurations supply three channel names.
* `go_to_position` returns the state after its mutations together with
  the first exception raised (if any): a raised exception propagates but
  earlier per-axis mutations persist, exactly as in Python.
-/

/-- A dynamically typed Python value as passed to the controller API. -/
inductive PyVal where
  | none
  | num (q : ℚ)
  | str (s : String)
deriving Repr, DecidableEq

/-- Python truthiness of a `PyVal` (the `if x:` test): `None` is falsy,
a number is falsy iff it is zero, a string is falsy iff it is empty. -/
def truthy : PyVal → Bool
  | PyVal.none => false
  | PyVal.num q => if q = 0 then false else true
  | PyVal.str s => if s = "" then false else true

/-- The two exception kinds raised by the controller:
`typeError` models Python `TypeError`, `valueError` models `ValueError`. -/
inductive PErr where
  | typeError
  | valueError
deriving Repr, DecidableEq

/-- Static configuration of a `PiezoControl` object (fields set by
`__init__` and never mutated by the operations). -/
structure PiezoConfig where
  device_name : String
  write_channels : List String
  read_channels : Option (List String)
  scale_microns_per_volt : ℚ
  minimum_allowed_position : ℚ
  maximum_allowed_position : ℚ

/-- One hardware voltage write: the axis index, the full channel path
passed to the DAQ task, the voltage written, and the commanded position
in microns from which the voltage was computed. -/
structure WriteEv where
  axis : Nat
  channel : String
  volts : ℚ
  microns : ℚ
deriving Repr, DecidableEq

/-- Mutable state of a `PiezoControl` object: `last_write_values`
(initially `[-1, -1, -1]`) plus the log of hardware writes issued. -/
structure PiezoState where
  last_write_values : List ℚ
  writes : List WriteEv
deriving Repr, DecidableEq

/-- The state of a freshly constructed `PiezoControl`
(`self.last_write_values = [-1, -1, -1]`, no writes issued yet). -/
def PiezoState.init : PiezoState :=
  { last_write_values := [-1, -1, -1], writes := [] }

/-- Configuration produced by `__init__`: bounds are hard-coded to
`[0, 80]`, the scale defaults to 8. -/
def mkPiezoConfig (device_name : String) (write_channels : List String)
    (read_channels : Option (List String)) (scale : ℚ) : PiezoConfig :=
  { device_name := device_name
    write_channels := write_channels
    read_channels := read_channels
    scale_microns_per_volt := scale
    minimum_allowed_position := 0
    maximum_allowed_position := 80 }

/-- Default configuration: device name Dev1, default channels and scale. -/
def cfg0 : PiezoConfig :=
  mkPiezoConfig "Dev1" ["ao0", "ao1", "ao2"] Option.none 8

/-- Full channel path: the device name, a slash, and the channel name. -/
def chanPath (cfg : PiezoConfig) (ch : String) : String :=
  cfg.device_name ++ "/" ++ ch

/-- Model of `PiezoControl._microns_to_volts`: `microns / self.scale_microns_per_volt`. -/
def microns_to_volts (cfg : PiezoConfig) (microns : ℚ) : ℚ :=
  microns / cfg.scale_microns_per_volt

/-- Model of `PiezoControl._volts_to_microns`: `self.scale_microns_per_volt * volts`. -/
def volts_to_microns (cfg : PiezoConfig) (volts : ℚ) : ℚ :=
  cfg.scale_microns_per_volt * volts

/-- Model of `PiezoControl._validate_value`: raises `TypeError` when the value is
not an int/float, then `ValueError` when it is below
`minimum_allowed_position` or above `maximum_allowed_position`;
otherwise returns the validated number. -/
def validate_value (cfg : PiezoConfig) (v : PyVal) : Except PErr ℚ :=
  match v with
  | PyVal.num q =>
      if q < cfg.minimum_allowed_position then Except.error PErr.valueError
      else if q > cfg.maximum_allowed_position then Except.error PErr.valueError
      else Except.ok q
  | _ => Except.error PErr.typeError

/-- One axis body of `go_to_position` (axis index `i`): skipped when the
argument is falsy; otherwise validates, writes the converted voltage to
the axis output channel, and records the commanded value in
`last_write_values[i]`.  An exception leaves the state untouched, since
validation happens before the write. -/
def setAxis (cfg : PiezoConfig) (i : Nat) (v : PyVal) (s : PiezoState) :
    Except PErr PiezoState :=
  if truthy v then
    match validate_value cfg v with
    | Except.error e => Except.error e
    | Except.ok q =>
        Except.ok
          { last_write_values := s.last_write_values.set i q
            writes := s.writes ++
              [{ axis := i
                 channel := chanPath cfg (cfg.write_channels.getD i "")
                 volts := microns_to_volts cfg q
                 microns := q }] }
  else Except.ok s

/-- Model of `PiezoControl.go_to_position`: processes axes in the order x, y, z;
an exception aborts the remaining axes but keeps the mutations already
made, and is returned alongside the final state.  (The settling-time
sleep has no observable effect on the state and is not modelled.) -/
def go_to_position (cfg : PiezoConfig) (x y z : PyVal) (s : PiezoState) :
    PiezoState × Option PErr :=
  match setAxis cfg 0 x s with
  | Except.error e => (s, some e)
  | Except.ok s1 =>
    match setAxis cfg 1 y s1 with
    | Except.error e => (s1, some e)
    | Except.ok s2 =>
      match setAxis cfg 2 z s2 with
      | Except.error e => (s2, some e)
      | Except.ok s3 => (s3, Option.none)

/-- Model of `PiezoControl.get_current_voltage`: `[-1, -1, -1]` when no read
channels are configured, otherwise the voltages read back from the three
input channels in axis order. -/
def get_current_voltage (cfg : PiezoConfig) (env : String → ℚ) : List ℚ :=
  match cfg.read_channels with
  | Option.none => [-1, -1, -1]
  | Option.some rcs =>
      [env (chanPath cfg (rcs.getD 0 "")),
       env (chanPath cfg (rcs.getD 1 "")),
       env (chanPath cfg (rcs.getD 2 ""))]

/-- Model of `PiezoControl.get_current_position`: `last_write_values` when no
read channels are configured, otherwise the read-back voltages converted
to microns. -/
def get_current_position (cfg : PiezoConfig) (env : String → ℚ)
    (s : PiezoState) : List ℚ :=
  match cfg.read_channels with
  | Option.none => s.last_write_values
  | Option.some _ =>
      (get_current_voltage cfg env).map (fun v => volts_to_microns cfg v)

/-- Python `cur + d` where `d` is dynamically typed: adding a non-number
to a float raises `TypeError`. -/
def pyAdd (q : ℚ) (v : PyVal) : Except PErr ℚ :=
  match v with
  | PyVal.num d => Except.ok (q + d)
  | _ => Except.error PErr.typeError

/-- Call of `go_to_position` with a single keyword argument for axis `i`
(as `step` does): the other two axes receive `None`. -/
def goAxis (cfg : PiezoConfig) (i : Nat) (v : PyVal) (s : PiezoState) :
    PiezoState × Option PErr :=
  go_to_position cfg
    (if i = 0 then v else PyVal.none)
    (if i = 1 then v else PyVal.none)
    (if i = 2 then v else PyVal.none) s

/-- One axis body of `step`: when the delta is truthy, computes
`cur + d` (a `TypeError` from the addition propagates), then calls
`go_to_position` for that axis; a `ValueError` is caught and counted as
one logged warning, any other exception propagates.  Returns the
resulting state, the propagating exception if any, and the number of
warnings logged. -/
def stepAxis (cfg : PiezoConfig) (i : Nat) (cur : ℚ) (d : PyVal)
    (s : PiezoState) : PiezoState × Option PErr × Nat :=
  if truthy d then
    match pyAdd cur d with
    | Except.error e => (s, some e, 0)
    | Except.ok target =>
      match goAxis cfg i (PyVal.num target) s with
      | (s', some PErr.valueError) => (s', Option.none, 1)
      | (s', some PErr.typeError) => (s', some PErr.typeError, 0)
      | (s', Option.none) => (s', Option.none, 0)
  else (s, Option.none, 0)

/-- Model of `PiezoControl.step`: reads the current position once, then steps
each truthy axis independently in the order x, y, z; an uncaught
exception aborts the remaining axes.  Returns the final state, the
propagating exception if any, and the total number of warnings logged. -/
def step (cfg : PiezoConfig) (env : String → ℚ) (dx dy dz : PyVal)
    (s0 : PiezoState) : PiezoState × Option PErr × Nat :=
  let pos := get_current_position cfg env s0
  let x := pos.getD 0 0
  let y := pos.getD 1 0
  let z := pos.getD 2 0
  match stepAxis cfg 0 x dx s0 with
  | (s1, some e, w1) => (s1, some e, w1)
  | (s1, Option.none, w1) =>
    match stepAxis cfg 1 y dy s1 with
    | (s2, some e, w2) => (s2, some e, w1 + w2)
    | (s2, Option.none, w2) =>
      match stepAxis cfg 2 z dz s2 with
      | (s3, e3, w3) => (s3, e3, w1 + w2 + w3)

/-- A public operation on a `PiezoControl` object.  The two getters do
not mutate the state but are listed so that "every operation" can be
quantified over. -/
inductive Op where
  | goTo (x y z : PyVal)
  | doStep (env : String → ℚ) (dx dy dz : PyVal)
  | getPos (env : String → ℚ)
  | getVolt (env : String → ℚ)

/-- The state of the object after an operation (exceptions propagate to
the caller but the object and its mutations survive). -/
def applyOp (cfg : PiezoConfig) (s : PiezoState) (op : Op) : PiezoState :=
  match op with
  | Op.goTo x y z => (go_to_position cfg x y z s).1
  | Op.doStep env dx dy dz => (step cfg env dx dy dz s).1
  | Op.getPos _ => s
  | Op.getVolt _ => s

/-- The object state after a sequence of operations on a freshly
constructed controller. -/
def runOps (cfg : PiezoConfig) (ops : List Op) : PiezoState :=
  ops.foldl (applyOp cfg) PiezoState.init

/-- The commanded position (microns) of the last hardware write to axis
`i` in the event log, or `-1` when axis `i` was never written. -/
def lastAxisWrite (ws : List WriteEv) (i : Nat) : ℚ :=
  ws.foldl (fun acc e => if e.axis = i then e.microns else acc) (-1)

/-- The `last_write_values` invariant: the list always has three
entries, and entry `i` is the commanded position of the last successful
write to axis `i`, or `-1` when that axis was never set. -/
def StateInv (s : PiezoState) : Prop :=
  s.last_write_values.length = 3 ∧
  ∀ i, i < 3 → s.last_write_values.getD i 0 = lastAxisWrite s.writes i

/-- Closed-loop configuration: the default controller with the three
read channels ai0, ai1, ai2 configured. -/
def cfgR : PiezoConfig :=
  mkPiezoConfig "Dev1" ["ao0", "ao1", "ao2"] (Option.some ["ai0", "ai1", "ai2"]) 8

/-- An environment on which every input channel reads back 5 volts. -/
def env5 : String → ℚ := fun _ => 5

/-- An environment on which every input channel reads back 0 volts. -/
def envZero : String → ℚ := fun _ => 0

/-- A controller state whose `last_write_values` is `[78, 10, -1]`. -/
def s78 : PiezoState := { last_write_values := [78, 10, -1], writes := [] }

/-- The state after `go_to_position(x=5)` on a fresh default controller. -/
def sA : PiezoState :=
  { last_write_values := [5, -1, -1]
    writes := [{ axis := 0, channel := chanPath cfg0 "ao0", volts := 5/8, microns := 5 }] }

/-- The state `s78` after `go_to_position(y=15)`. -/
def s78y : PiezoState :=
  { last_write_values := [78, 15, -1]
    writes := [{ axis := 1, channel := chanPath cfg0 "ao1", volts := 15/8, microns := 15 }] }

lemma setAxis_falsy (cfg : PiezoConfig) (i : Nat) (v : PyVal) (s : PiezoState)
    (h : truthy v = false) : setAxis cfg i v s = Except.ok s := by
  simp [setAxis, h]

lemma setAxis_none (cfg : PiezoConfig) (i : Nat) (s : PiezoState) :
    setAxis cfg i PyVal.none s = Except.ok s :=
  setAxis_falsy cfg i PyVal.none s rfl

lemma setAxis_err (cfg : PiezoConfig) (i : Nat) (v : PyVal) (s : PiezoState) (e : PErr)
    (ht : truthy v = true) (hval : validate_value cfg v = Except.error e) :
    setAxis cfg i v s = Except.error e := by
  simp [setAxis, ht, hval]

lemma goAxis_falsy (cfg : PiezoConfig) (i : Nat) (v : PyVal) (s : PiezoState)
    (h : truthy v = false) : goAxis cfg i v s = (s, Option.none) := by
  have hx : ∀ j : Nat, truthy (if i = j then v else PyVal.none) = false := by
    intro j
    by_cases hj : i = j
    · simp [hj, h]
    · simp [hj, truthy]
  simp [goAxis, go_to_position,
    setAxis_falsy _ _ _ _ (hx 0), setAxis_falsy _ _ _ _ (hx 1), setAxis_falsy _ _ _ _ (hx 2)]

lemma goAxis_err (cfg : PiezoConfig) (i : Nat) (v : PyVal) (s : PiezoState) (e : PErr)
    (hi : i < 3) (ht : truthy v = true) (hval : validate_value cfg v = Except.error e) :
    goAxis cfg i v s = (s, some e) := by
  unfold goAxis
  interval_cases i <;>
    simp [go_to_position, setAxis_none,
      setAxis_err _ _ _ _ _ ht hval]

lemma go_x_valid (cfg : PiezoConfig) (s : PiezoState) (x : ℚ)
    (h0 : cfg.minimum_allowed_position ≤ x) (h80 : x ≤ cfg.maximum_allowed_position)
    (hx : x ≠ 0) :
    go_to_position cfg (PyVal.num x) PyVal.none PyVal.none s =
      ({ last_write_values := s.last_write_values.set 0 x
         writes := s.writes ++
           [{ axis := 0
              channel := chanPath cfg (cfg.write_channels.getD 0 "")
              volts := x / cfg.scale_microns_per_volt
              microns := x }] }, Option.none) := by
  have h1 : ¬ x < cfg.minimum_allowed_position := not_lt.mpr h0
  have h2 : ¬ x > cfg.maximum_allowed_position := not_lt.mpr h80
  simp [go_to_position, setAxis, truthy, validate_value, hx, h1, h2, microns_to_volts]

/-- C9: `go_to_position` treats a zero-valued (or `None`) axis argument as
not provided: that axis is not validated, not written, raises nothing and
leaves `last_write_values` unchanged, while the remaining axes are
processed exactly as if the axis had been omitted. -/
theorem c9_zero_treated_as_not_provided (cfg : PiezoConfig) (s : PiezoState) (i : Nat)
    (x y z : PyVal) :
    setAxis cfg i (PyVal.num 0) s = Except.ok s ∧
    setAxis cfg i PyVal.none s = Except.ok s ∧
    go_to_position cfg (PyVal.num 0) y z s = go_to_position cfg PyVal.none y z s ∧
    go_to_position cfg x (PyVal.num 0) z s = go_to_position cfg x PyVal.none z s ∧
    go_to_position cfg x y (PyVal.num 0) s = go_to_position cfg x y PyVal.none s := by
  have hz : truthy (PyVal.num 0) = false := by simp [truthy]
  refine ⟨setAxis_falsy _ _ _ _ hz, setAxis_none _ _ _, ?_, ?_, ?_⟩
  · simp [go_to_position, setAxis_falsy _ _ _ _ hz, setAxis_none]
  · cases h0 : setAxis cfg 0 x s with
    | error e => simp [go_to_position, h0]
    | ok s1 => simp [go_to_position, h0, setAxis_falsy _ _ _ _ hz, setAxis_none]
  · cases h0 : setAxis cfg 0 x s with
    | error e => simp [go_to_position, h0]
    | ok s1 =>
      cases h1 : setAxis cfg 1 y s1 with
      | error e => simp [go_to_position, h0, h1]
      | ok s2 => simp [go_to_position, h0, h1, setAxis_falsy _ _ _ _ hz, setAxis_none]

/-- C10: a step whose target position is exactly 0 is silently dropped:
no hardware write, no warning, no exception, `last_write_values`
untouched; a zero delta likewise skips the axis entirely. -/
theorem c10_zero_target_silently_dropped (cfg : PiezoConfig) (i : Nat) (cur : ℚ)
    (s : PiezoState) :
    (∀ d : ℚ, d ≠ 0 → cur + d = 0 → stepAxis cfg i cur (PyVal.num d) s = (s, Option.none, 0)) ∧
    stepAxis cfg i cur (PyVal.num 0) s = (s, Option.none, 0) := by
  constructor
  · intro d hd h0
    have ht : truthy (PyVal.num d) = true := by simp [truthy, hd]
    have hz : truthy (PyVal.num (cur + d)) = false := by simp [truthy, h0]
    simp [stepAxis, ht, pyAdd, goAxis_falsy _ _ _ _ hz]
  · simp [stepAxis, truthy]

/-- Witness for C10: stepping by -3 from position 3 is silently dropped. -/
theorem c10_witness :
    ((-3 : ℚ) ≠ 0 ∧ (3 : ℚ) + (-3) = 0) ∧
    stepAxis cfg0 0 3 (PyVal.num (-3)) PiezoState.init = (PiezoState.init, Option.none, 0) :=
  ⟨⟨by norm_num, by norm_num⟩,
   (c10_zero_target_silently_dropped cfg0 0 3 PiezoState.init).1 (-3) (by norm_num) (by norm_num)⟩

/-- C3: `go_to_position` applies the axes in the order x, y, z and an
exception on a later axis keeps the writes and
`last_write_values` update while leaving the failing axis and all
subsequent axes untouched. -/
theorem c3_partial_application_in_axis_order (cfg : PiezoConfig) (s : PiezoState)
    (x y z : PyVal) :
    (∀ e, setAxis cfg 0 x s = Except.error e → go_to_position cfg x y z s = (s, some e)) ∧
    (∀ s1 e, setAxis cfg 0 x s = Except.ok s1 → setAxis cfg 1 y s1 = Except.error e →
        go_to_position cfg x y z s = (s1, some e)) ∧
    (∀ s1 s2 e, setAxis cfg 0 x s = Except.ok s1 → setAxis cfg 1 y s1 = Except.ok s2 →
        setAxis cfg 2 z s2 = Except.error e → go_to_position cfg x y z s = (s2, some e)) := by
  refine ⟨?_, ?_, ?_⟩
  · intro e h
    simp [go_to_position, h]
  · intro s1 e h0 h1
    simp [go_to_position, h0, h1]
  · intro s1 s2 e h0 h1 h2
    simp [go_to_position, h0, h1, h2]

/-- Witness for C3: `go_to_position(x=5, y=100)` applies the x write and
then fails on y, keeping the x mutation. -/
theorem c3_witness :
    setAxis cfg0 0 (PyVal.num 5) PiezoState.init = Except.ok sA ∧
    setAxis cfg0 1 (PyVal.num 100) sA = Except.error PErr.valueError ∧
    go_to_position cfg0 (PyVal.num 5) (PyVal.num 100) PyVal.none PiezoState.init =
      (sA, some PErr.valueError) := by
  have hA : setAxis cfg0 0 (PyVal.num 5) PiezoState.init = Except.ok sA := by
    norm_num [setAxis, truthy, validate_value, cfg0, mkPiezoConfig, microns_to_volts,
      PiezoState.init, sA]
  have hB : setAxis cfg0 1 (PyVal.num 100) sA = Except.error PErr.valueError := by
    norm_num [setAxis, truthy, validate_value, cfg0, mkPiezoConfig]
  exact ⟨hA, hB,
    (c3_partial_application_in_axis_order cfg0 PiezoState.init (PyVal.num 5) (PyVal.num 100)
      PyVal.none).2.1 sA PErr.valueError hA hB⟩

/-- C6: `get_current_position` returns `last_write_values` when no read
channels are configured and otherwise converts each read-back voltage to
microns by multiplying with the scale factor. -/
theorem c6_get_current_position_spec (cfg : PiezoConfig) (env : String → ℚ)
    (s : PiezoState) :
    (cfg.read_channels = Option.none → get_current_position cfg env s = s.last_write_values) ∧
    (∀ a b c, cfg.read_channels = Option.some [a, b, c] →
        get_current_position cfg env s =
          [cfg.scale_microns_per_volt * env (chanPath cfg a),
           cfg.scale_microns_per_volt * env (chanPath cfg b),
           cfg.scale_microns_per_volt * env (chanPath cfg c)]) := by
  constructor
  · intro h
    simp [get_current_position, h]
  · intro a b c h
    simp [get_current_position, get_current_voltage, h, volts_to_microns]

/-- Witness for C6: open loop returns `last_write_values`; closed loop
with 5 volts read back at scale 8 returns 40 microns on every axis. -/
theorem c6_witness :
    (cfg0.read_channels = Option.none ∧
      get_current_position cfg0 env5 PiezoState.init = PiezoState.init.last_write_values) ∧
    (cfgR.read_channels = Option.some ["ai0", "ai1", "ai2"] ∧
      get_current_position cfgR env5 PiezoState.init = [40, 40, 40]) := by
  refine ⟨⟨rfl, (c6_get_current_position_spec cfg0 env5 PiezoState.init).1 rfl⟩, ⟨rfl, ?_⟩⟩
  rw [(c6_get_current_position_spec cfgR env5 PiezoState.init).2 "ai0" "ai1" "ai2" rfl]
  norm_num [cfgR, mkPiezoConfig, env5]

/-- C7: `get_current_voltage` returns `[-1, -1, -1]` when no read
channels are configured and otherwise the raw voltages read from the
three input channels in axis order x, y, z. -/
theorem c7_get_current_voltage_spec (cfg : PiezoConfig) (env : String → ℚ) :
    (cfg.read_channels = Option.none → get_current_voltage cfg env = [-1, -1, -1]) ∧
    (∀ a b c, cfg.read_channels = Option.some [a, b, c] →
        get_current_voltage cfg env =
          [env (chanPath cfg a), env (chanPath cfg b), env (chanPath cfg c)]) := by
  constructor
  · intro h
    simp [get_current_voltage, h]
  · intro a b c h
    simp [get_current_voltage, h]

/-- Witness for C7: no read channels gives `[-1, -1, -1]`; configured
read channels give the raw 5-volt read-backs. -/
theorem c7_witness :
    (cfg0.read_channels = Option.none ∧ get_current_voltage cfg0 env5 = [-1, -1, -1]) ∧
    (cfgR.read_channels = Option.some ["ai0", "ai1", "ai2"] ∧
      get_current_voltage cfgR env5 = [5, 5, 5]) := by
  refine ⟨⟨rfl, (c7_get_current_voltage_spec cfg0 env5).1 rfl⟩, ⟨rfl, ?_⟩⟩
  rw [(c7_get_current_voltage_spec cfgR env5).2 "ai0" "ai1" "ai2" rfl]
  norm_num [env5]

/-- Counterexample for C1 as stated: 0 lies within the allowed bounds,
yet `go_to_position(x=0)` on a fresh controller leaves
`last_write_values[0]` at -1 (not 0) and issues no hardware write. -/
theorem c1_counterexample :
    cfg0.minimum_allowed_position ≤ 0 ∧ (0:ℚ) ≤ cfg0.maximum_allowed_position ∧
    (go_to_position cfg0 (PyVal.num 0) PyVal.none PyVal.none
        PiezoState.init).1.last_write_values.getD 0 0 ≠ 0 ∧
    (go_to_position cfg0 (PyVal.num 0) PyVal.none PyVal.none PiezoState.init).1.writes = [] := by
  norm_num [go_to_position, setAxis, truthy, PiezoState.init, cfg0, mkPiezoConfig]

/-- C1 (amended: the value must also be nonzero, since a zero argument is
falsy and skipped): for every in-bounds nonzero x, `go_to_position(x=x)`
sets `last_write_values[0]` to x and writes the voltage
`x / scale_microns_per_volt` to the configured x output channel. -/
theorem c1_go_to_position_valid_nonzero_x (cfg : PiezoConfig) (s : PiezoState) (x : ℚ)
    (h0 : cfg.minimum_allowed_position ≤ x) (h80 : x ≤ cfg.maximum_allowed_position)
    (hx : x ≠ 0) :
    go_to_position cfg (PyVal.num x) PyVal.none PyVal.none s =
      ({ last_write_values := s.last_write_values.set 0 x
         writes := s.writes ++
           [{ axis := 0
              channel := chanPath cfg (cfg.write_channels.getD 0 "")
              volts := x / cfg.scale_microns_per_volt
              microns := x }] }, Option.none) :=
  go_x_valid cfg s x h0 h80 hx

/-- Witness for C1: `go_to_position(x=40)` on a fresh default controller. -/
theorem c1_witness :
    (cfg0.minimum_allowed_position ≤ 40 ∧ (40:ℚ) ≤ cfg0.maximum_allowed_position ∧
      (40:ℚ) ≠ 0) ∧
    go_to_position cfg0 (PyVal.num 40) PyVal.none PyVal.none PiezoState.init =
      ({ last_write_values := PiezoState.init.last_write_values.set 0 40
         writes := PiezoState.init.writes ++
           [{ axis := 0
              channel := chanPath cfg0 (cfg0.write_channels.getD 0 "")
              volts := 40 / cfg0.scale_microns_per_volt
              microns := 40 }] }, Option.none) :=
  ⟨⟨by norm_num [cfg0, mkPiezoConfig], by norm_num [cfg0, mkPiezoConfig], by norm_num⟩,
   c1_go_to_position_valid_nonzero_x cfg0 PiezoState.init 40
     (by norm_num [cfg0, mkPiezoConfig]) (by norm_num [cfg0, mkPiezoConfig]) (by norm_num)⟩

/-- C2: for a truthy axis argument on any of the three axes,
`go_to_position` raises `ValueError` when the value is numeric and out of
bounds and `TypeError` when it is not numeric, in both cases before any
hardware write or `last_write_values` update for that axis, and the
exception is returned to the caller. -/
theorem c2_validation_errors (cfg : PiezoConfig) (s : PiezoState) (i : Nat) (v : PyVal)
    (hi : i < 3) (hv : truthy v = true) :
    ((∃ q, v = PyVal.num q ∧
        (q < cfg.minimum_allowed_position ∨ cfg.maximum_allowed_position < q)) →
      goAxis cfg i v s = (s, some PErr.valueError)) ∧
    ((∀ q, v ≠ PyVal.num q) → goAxis cfg i v s = (s, some PErr.typeError)) := by
  constructor
  · rintro ⟨q, rfl, hq⟩
    have hval : validate_value cfg (PyVal.num q) = Except.error PErr.valueError := by
      by_cases hlt : q < cfg.minimum_allowed_position
      · simp [validate_value, hlt]
      · rcases hq with h | h
        · exact absurd h hlt
        · simp [validate_value, hlt, h]
    exact goAxis_err cfg i _ s _ hi hv hval
  · intro hq
    have hval : validate_value cfg v = Except.error PErr.typeError := by
      cases v with
      | none => rfl
      | num q => exact absurd rfl (hq q)
      | str t => rfl
    exact goAxis_err cfg i v s _ hi hv hval

/-- Witness for C2: `go_to_position(x=-1)` and `go_to_position(x=81)`
raise `ValueError`, `go_to_position(x="a")` raises `TypeError`, each
leaving the fresh state untouched. -/
theorem c2_witness :
    goAxis cfg0 0 (PyVal.num (-1)) PiezoState.init = (PiezoState.init, some PErr.valueError) ∧
    goAxis cfg0 0 (PyVal.num 81) PiezoState.init = (PiezoState.init, some PErr.valueError) ∧
    goAxis cfg0 0 (PyVal.str "a") PiezoState.init = (PiezoState.init, some PErr.typeError) :=
  ⟨(c2_validation_errors cfg0 PiezoState.init 0 (PyVal.num (-1)) (by norm_num)
      (by decide)).1 ⟨-1, rfl, Or.inl (by norm_num [cfg0, mkPiezoConfig])⟩,
   (c2_validation_errors cfg0 PiezoState.init 0 (PyVal.num 81) (by norm_num)
      (by decide)).1 ⟨81, rfl, Or.inr (by norm_num [cfg0, mkPiezoConfig])⟩,
   (c2_validation_errors cfg0 PiezoState.init 0 (PyVal.str "a") (by norm_num)
      (by decide)).2 (fun q => by simp)⟩

/-- C4: `step` catches `ValueError` per axis (one warning, the axis is
skipped, nothing propagates), while a `TypeError` from a non-numeric
delta propagates; concretely, `step(dx=5, dy=5)` from position
`[78, 10, -1]` skips x with one warning (x stays 78), still applies y,
and raises nothing. -/
theorem c4_step_catches_out_of_range :
    (∀ (cfg : PiezoConfig) (i : Nat), i < 3 → ∀ (cur d : ℚ) (s : PiezoState),
        cfg.minimum_allowed_position = 0 → cfg.maximum_allowed_position = 80 → d ≠ 0 →
        (cur + d < 0 ∨ 80 < cur + d) →
        stepAxis cfg i cur (PyVal.num d) s = (s, Option.none, 1)) ∧
    (∀ (cfg : PiezoConfig) (i : Nat) (cur : ℚ) (v : PyVal) (s : PiezoState),
        truthy v = true → (∀ q, v ≠ PyVal.num q) →
        stepAxis cfg i cur v s = (s, some PErr.typeError, 0)) ∧
    step cfg0 envZero (PyVal.num 5) (PyVal.num 5) PyVal.none s78 = (s78y, Option.none, 1) := by
  refine ⟨?_, ?_, ?_⟩
  · intro cfg i hi cur d s hmin hmax hd hout
    have ht : truthy (PyVal.num d) = true := by simp [truthy, hd]
    have hne : cur + d ≠ 0 := by
      rcases hout with h | h <;> intro h0 <;> rw [h0] at h <;> norm_num at h
    have htarget : truthy (PyVal.num (cur + d)) = true := by simp [truthy, hne]
    have hval : validate_value cfg (PyVal.num (cur + d)) = Except.error PErr.valueError := by
      rcases hout with h | h
      · simp [validate_value, hmin, h]
      · have hnlt : ¬ cur + d < (0:ℚ) := by linarith
        simp [validate_value, hmin, hmax, hnlt, h]
    have hg := goAxis_err cfg i (PyVal.num (cur + d)) s PErr.valueError hi htarget hval
    simp [stepAxis, ht, pyAdd, hg]
  · intro cfg i cur v s ht hq
    have hadd : pyAdd cur v = Except.error PErr.typeError := by
      cases v with
      | none => rfl
      | num q => exact absurd rfl (hq q)
      | str t => rfl
    simp [stepAxis, ht, hadd]
  · norm_num [step, stepAxis, goAxis, go_to_position, setAxis, truthy, validate_value, pyAdd,
      get_current_position, cfg0, mkPiezoConfig, microns_to_volts, s78, s78y, PiezoState.init]

/-- Witness for C4: a concrete caught out-of-range step and a concrete
propagating non-numeric delta. -/
theorem c4_witness :
    stepAxis cfg0 0 78 (PyVal.num 5) s78 = (s78, Option.none, 1) ∧
    stepAxis cfg0 0 0 (PyVal.str "a") PiezoState.init =
      (PiezoState.init, some PErr.typeError, 0) :=
  ⟨c4_step_catches_out_of_range.1 cfg0 0 (by norm_num) 78 5 s78 rfl rfl (by norm_num)
      (Or.inr (by norm_num)),
   c4_step_catches_out_of_range.2.1 cfg0 0 0 (PyVal.str "a") PiezoState.init (by decide)
      (fun q => by simp)⟩

/-- Counterexample for C5 as stated: v = 0 is within bounds, yet the
open-loop round trip `go_to_position(x=0)` then `get_current_position()`
returns -1 for axis x on a fresh controller, not 0. -/
theorem c5_counterexample :
    cfg0.read_channels = Option.none ∧
    cfg0.minimum_allowed_position ≤ 0 ∧ (0:ℚ) ≤ cfg0.maximum_allowed_position ∧
    (get_current_position cfg0 envZero
        (go_to_position cfg0 (PyVal.num 0) PyVal.none PyVal.none
          PiezoState.init).1).getD 0 0 ≠ 0 := by
  refine ⟨rfl, by norm_num [cfg0, mkPiezoConfig], by norm_num [cfg0, mkPiezoConfig], ?_⟩
  norm_num [get_current_position, go_to_position, setAxis, truthy, cfg0, mkPiezoConfig,
    PiezoState.init]

/-- C5 (amended: the value must also be nonzero, since a zero argument is
falsy and skipped): the open-loop round trip returns the commanded
in-bounds nonzero value unchanged for axis x. -/
theorem c5_round_trip_nonzero (cfg : PiezoConfig) (env : String → ℚ) (s : PiezoState)
    (v : ℚ) (hrc : cfg.read_channels = Option.none)
    (hlen : s.last_write_values.length = 3)
    (h0 : cfg.minimum_allowed_position ≤ v) (h80 : v ≤ cfg.maximum_allowed_position)
    (hv : v ≠ 0) :
    (get_current_position cfg env
        (go_to_position cfg (PyVal.num v) PyVal.none PyVal.none s).1).getD 0 0 = v := by
  rw [go_x_valid cfg s v h0 h80 hv]
  obtain ⟨a, b, c, hl⟩ := List.length_eq_three.mp hlen
  simp [get_current_position, hrc, hl]

/-- Witness for C5: the round trip at v = 40 on a fresh default controller. -/
theorem c5_witness :
    (cfg0.read_channels = Option.none ∧ PiezoState.init.last_write_values.length = 3 ∧
      cfg0.minimum_allowed_position ≤ 40 ∧ (40:ℚ) ≤ cfg0.maximum_allowed_position ∧
      (40:ℚ) ≠ 0) ∧
    (get_current_position cfg0 envZero
        (go_to_position cfg0 (PyVal.num 40) PyVal.none PyVal.none
          PiezoState.init).1).getD 0 0 = 40 :=
  ⟨⟨rfl, rfl, by norm_num [cfg0, mkPiezoConfig], by norm_num [cfg0, mkPiezoConfig],
      by norm_num⟩,
   c5_round_trip_nonzero cfg0 envZero PiezoState.init 40 rfl rfl
     (by norm_num [cfg0, mkPiezoConfig]) (by norm_num [cfg0, mkPiezoConfig]) (by norm_num)⟩

lemma lastAxisWrite_append (ws : List WriteEv) (e : WriteEv) (i : Nat) :
    lastAxisWrite (ws ++ [e]) i = if e.axis = i then e.microns else lastAxisWrite ws i := by
  simp [lastAxisWrite, List.foldl_append]

lemma stateInv_init : StateInv PiezoState.init := by
  refine ⟨rfl, ?_⟩
  intro i hi
  interval_cases i <;> rfl

lemma setAxis_ok_inv (cfg : PiezoConfig) (i : Nat) (v : PyVal) (s s' : PiezoState)
    (hi : i < 3) (h : StateInv s) (hs : setAxis cfg i v s = Except.ok s') : StateInv s' := by
  obtain ⟨hL, hI⟩ := h
  by_cases ht : truthy v = true
  · simp only [setAxis, ht, if_true] at hs
    cases hval : validate_value cfg v with
    | error e => rw [hval] at hs; simp at hs
    | ok q =>
      rw [hval] at hs
      simp only [Except.ok.injEq] at hs
      subst hs
      obtain ⟨a, b, c, hl⟩ := List.length_eq_three.mp hL
      have ha : a = lastAxisWrite s.writes 0 := by simpa [hl] using hI 0 (by omega)
      have hb : b = lastAxisWrite s.writes 1 := by simpa [hl] using hI 1 (by omega)
      have hc : c = lastAxisWrite s.writes 2 := by simpa [hl] using hI 2 (by omega)
      refine ⟨?_, ?_⟩
      · simp [hl]
      · intro j hj
        rw [lastAxisWrite_append]
        simp only [hl]
        interval_cases i <;> interval_cases j <;> simp [ha, hb, hc]
  · have hf : truthy v = false := by simpa using ht
    rw [setAxis_falsy cfg i v s hf] at hs
    simp only [Except.ok.injEq] at hs
    subst hs
    exact ⟨hL, hI⟩

lemma go_inv (cfg : PiezoConfig) (x y z : PyVal) (s : PiezoState) (h : StateInv s) :
    StateInv (go_to_position cfg x y z s).1 := by
  cases h0 : setAxis cfg 0 x s with
  | error e => simpa [go_to_position, h0] using h
  | ok s1 =>
    have h1 := setAxis_ok_inv cfg 0 x s s1 (by omega) h h0
    cases hy : setAxis cfg 1 y s1 with
    | error e => simpa [go_to_position, h0, hy] using h1
    | ok s2 =>
      have h2 := setAxis_ok_inv cfg 1 y s1 s2 (by omega) h1 hy
      cases hz : setAxis cfg 2 z s2 with
      | error e => simpa [go_to_position, h0, hy, hz] using h2
      | ok s3 =>
        simpa [go_to_position, h0, hy, hz] using
          setAxis_ok_inv cfg 2 z s2 s3 (by omega) h2 hz

lemma goAxis_inv (cfg : PiezoConfig) (i : Nat) (v : PyVal) (s : PiezoState)
    (h : StateInv s) : StateInv (goAxis cfg i v s).1 := by
  unfold goAxis
  exact go_inv cfg _ _ _ s h

lemma stepAxis_inv (cfg : PiezoConfig) (i : Nat) (cur : ℚ) (d : PyVal) (s : PiezoState)
    (h : StateInv s) : StateInv (stepAxis cfg i cur d s).1 := by
  by_cases ht : truthy d = true
  · cases hp : pyAdd cur d with
    | error e => simpa [stepAxis, ht, hp] using h
    | ok target =>
      have hg := goAxis_inv cfg i (PyVal.num target) s h
      cases hG : goAxis cfg i (PyVal.num target) s with
      | mk s' e' =>
        rw [hG] at hg
        simp only at hg
        cases e' with
        | none => simpa [stepAxis, ht, hp, hG] using hg
        | some pe => cases pe <;> simpa [stepAxis, ht, hp, hG] using hg
  · simpa [stepAxis, ht] using h

lemma step_inv (cfg : PiezoConfig) (env : String → ℚ) (dx dy dz : PyVal) (s0 : PiezoState)
    (h : StateInv s0) : StateInv (step cfg env dx dy dz s0).1 := by
  simp only [step]
  split
  next s1 e w1 hA =>
    have hx := stepAxis_inv cfg 0 ((get_current_position cfg env s0).getD 0 0) dx s0 h
    rw [hA] at hx
    exact hx
  next s1 w1 hA =>
    have h1 : StateInv s1 := by
      have hx := stepAxis_inv cfg 0 ((get_current_position cfg env s0).getD 0 0) dx s0 h
      rw [hA] at hx
      exact hx
    split
    next s2 e w2 hB =>
      have hx := stepAxis_inv cfg 1 ((get_current_position cfg env s0).getD 1 0) dy s1 h1
      rw [hB] at hx
      exact hx
    next s2 w2 hB =>
      have h2 : StateInv s2 := by
        have hx := stepAxis_inv cfg 1 ((get_current_position cfg env s0).getD 1 0) dy s1 h1
        rw [hB] at hx
        exact hx
      exact stepAxis_inv cfg 2 ((get_current_position cfg env s0).getD 2 0) dz s2 h2

lemma applyOp_inv (cfg : PiezoConfig) (s : PiezoState) (op : Op) (h : StateInv s) :
    StateInv (applyOp cfg s op) := by
  cases op with
  | goTo x y z => exact go_inv cfg x y z s h
  | doStep env dx dy dz => exact step_inv cfg env dx dy dz s h
  | getPos env => exact h
  | getVolt env => exact h

lemma foldl_applyOp_inv (cfg : PiezoConfig) (ops : List Op) (s : PiezoState)
    (h : StateInv s) : StateInv (ops.foldl (applyOp cfg) s) := by
  induction ops generalizing s with
  | nil => simpa using h
  | cons op rest ih => simpa using ih (applyOp cfg s op) (applyOp_inv cfg s op h)

/-- C8: after any sequence of operations on a fresh controller,
`last_write_values` still has three entries and entry `i` equals the
commanded position of the last validated-and-written command for axis
`i`, or -1 when that axis was never set. -/
theorem c8_last_write_values_invariant (cfg : PiezoConfig) (ops : List Op) :
    (runOps cfg ops).last_write_values.length = 3 ∧
    ∀ i, i < 3 →
      (runOps cfg ops).last_write_values.getD i 0 =
        lastAxisWrite (runOps cfg ops).writes i :=
  foldl_applyOp_inv cfg ops PiezoState.init stateInv_init

/-- Witness for C8: the invariant instantiated at axis 0 after one
`go_to_position(x=12)` call. -/
theorem c8_witness :
    (0:Nat) < 3 ∧
    (runOps cfg0 [Op.goTo (PyVal.num 12) PyVal.none PyVal.none]).last_write_values.getD 0 0 =
      lastAxisWrite (runOps cfg0 [Op.goTo (PyVal.num 12) PyVal.none PyVal.none]).writes 0 :=
  ⟨by norm_num,
   (c8_last_write_values_invariant cfg0 [Op.goTo (PyVal.num 12) PyVal.none PyVal.none]).2 0
     (by norm_num)⟩
